import Mathlib

/-!
Verification of the mega-meng HTTP service.

The deployed server (`pythonanywhere_server.py`) is a FastAPI application
with a router under the `/api` path carrying two GET routes, wrapped in
Starlette's CORSMiddleware configured with `allow_credentials=True`,
`allow_origins=["*"]`, `allow_methods=["*"]`, `allow_headers=["*"]`.

HTTP header names are case-insensitive; we model them as already
lowercased strings.  JSON values are modelled by a small inductive type;
opaque identifier strings and ISO-8601 timestamps of the status-check
service are modelled as natural numbers (only their equality matters to
the contract).
-/

/-- A JSON value: string, number, array or object. -/
inductive Json where
  | str : String → Json
  | num : Nat → Json
  | arr : List Json → Json
  | obj : List (String × Json) → Json

/-- Field lookup in a JSON object; `none` on non-objects and absent keys. -/
def jsonField : Json → String → Option Json
  | Json.obj fields, k => (fields.find? (fun p => p.1 = k)).map (fun p => p.2)
  | _, _ => none

/-- An HTTP request: method, path and (lowercased-name) headers.
Request bodies are passed separately to the one handler that reads one. -/
structure Request where
  method : String
  path : String
  headers : List (String × String)

/-- An HTTP response: status code, headers and JSON body. -/
structure Response where
  status : Nat
  headers : List (String × String)
  body : Json

/-- First-match header lookup by (lowercased) name. -/
def getHeader (headers : List (String × String)) (name : String) : Option String :=
  (headers.find? (fun p => p.1 = name)).map (fun p => p.2)

/-- Return value of the `root` handler (`GET /api/`), verbatim from
`pythonanywhere_server.py`. -/
def root : Json :=
  Json.obj [("message", Json.str "Hello from Mega Meng!"),
            ("status", Json.str "PythonAnywhere ready")]

/-- Return value of the `health_check` handler (`GET /api/health`),
verbatim from `pythonanywhere_server.py`. -/
def health_check : Json :=
  Json.obj [("status", Json.str "healthy"),
            ("platform", Json.str "PythonAnywhere")]

/-- A 200 response serializing a handler's return value as JSON. -/
def jsonResponse (j : Json) : Response :=
  { status := 200, headers := [("content-type", "application/json")], body := j }

/-- FastAPI's 404 response for a path matching no registered route. -/
def not_found : Response :=
  { status := 404, headers := [("content-type", "application/json")],
    body := Json.obj [("detail", Json.str "Not Found")] }

/-- Starlette's 405 response for a registered path with a disallowed method. -/
def method_not_allowed : Response :=
  { status := 405, headers := [("content-type", "application/json")],
    body := Json.obj [("detail", Json.str "Method Not Allowed")] }

/-- A 200 response serving a fixed HTML page (FastAPI's documentation
pages); the page text is carried in a `Json.str`. -/
def htmlResponse (page : String) : Response :=
  { status := 200, headers := [("content-type", "text/html; charset=utf-8")],
    body := Json.str page }

/-- The OpenAPI schema document served by FastAPI's auto-registered
`GET /openapi.json` route: the schema version, the title and version from
the `FastAPI(title="Mega Meng API", version="1.0.0")` constructor, and a
paths object listing the two API routes (their operation objects, which no
claim inspects, are elided). -/
def openapi_schema : Json :=
  Json.obj [("openapi", Json.str "3.1.0"),
            ("info", Json.obj [("title", Json.str "Mega Meng API"),
                               ("version", Json.str "1.0.0")]),
            ("paths", Json.obj [("/api/", Json.obj []),
                                ("/api/health", Json.obj [])])]

/-- The Swagger UI page served at `GET /docs`: a fixed HTML document
generated by FastAPI, elided to a marker since only the route's existence,
status and content type are contract-relevant. -/
def swagger_ui_page : String := "swagger-ui"

/-- The OAuth2 redirect helper page served at `GET /docs/oauth2-redirect`,
elided like `swagger_ui_page`. -/
def oauth2_redirect_page : String := "swagger-ui-oauth2-redirect"

/-- The ReDoc page served at `GET /redoc`, elided like `swagger_ui_page`. -/
def redoc_page : String := "redoc"

/-- The application behind the CORS middleware: route dispatch over the two
routes registered on `api_router` (`GET /api/` and `GET /api/health`) and
the four documentation routes FastAPI registers by default (`GET
/openapi.json`, `/docs`, `/docs/oauth2-redirect`, `/redoc`).  Starlette
adds implicit HEAD support to every GET route, so each route answers GET
and HEAD; a registered path with another method gets 405, any other path
falls through to 404.  (Starlette's trailing-slash 307 redirect, e.g. for
`/api`, is not modelled; both sides are non-success statuses and no claim
mentions it.) -/
def baseApp (req : Request) : Response :=
  if req.path = "/api/" then
    if req.method = "GET" ∨ req.method = "HEAD" then jsonResponse root
    else method_not_allowed
  else if req.path = "/api/health" then
    if req.method = "GET" ∨ req.method = "HEAD" then jsonResponse health_check
    else method_not_allowed
  else if req.path = "/openapi.json" then
    if req.method = "GET" ∨ req.method = "HEAD" then jsonResponse openapi_schema
    else method_not_allowed
  else if req.path = "/docs" then
    if req.method = "GET" ∨ req.method = "HEAD" then htmlResponse swagger_ui_page
    else method_not_allowed
  else if req.path = "/docs/oauth2-redirect" then
    if req.method = "GET" ∨ req.method = "HEAD" then htmlResponse oauth2_redirect_page
    else method_not_allowed
  else if req.path = "/redoc" then
    if req.method = "GET" ∨ req.method = "HEAD" then htmlResponse redoc_page
    else method_not_allowed
  else not_found

/-- Starlette's expansion of `allow_methods=["*"]` (its `ALL_METHODS`). -/
def ALL_METHODS : List String :=
  ["DELETE", "GET", "HEAD", "OPTIONS", "PATCH", "POST", "PUT"]

/-- CORSMiddleware preflight handling with this app's configuration: the
origin is always allowed and, because `allow_credentials=True`, it is echoed
explicitly; a requested method outside `ALL_METHODS` fails with 400, but the
`access-control-allow-origin` header is attached either way. -/
def preflight_response (reqHeaders : List (String × String)) : Response :=
  let origin := (getHeader reqHeaders "origin").getD ""
  let requestedMethod := (getHeader reqHeaders "access-control-request-method").getD ""
  let requestedHeaders := getHeader reqHeaders "access-control-request-headers"
  let baseHeaders :=
    [("vary", "Origin"),
     ("access-control-allow-methods", "DELETE, GET, HEAD, OPTIONS, PATCH, POST, PUT"),
     ("access-control-max-age", "600"),
     ("access-control-allow-credentials", "true"),
     ("access-control-allow-origin", origin)]
  let respHeaders :=
    match requestedHeaders with
    | some h => baseHeaders ++ [("access-control-allow-headers", h)]
    | none => baseHeaders
  if requestedMethod ∈ ALL_METHODS then
    { status := 200, headers := respHeaders, body := Json.str "OK" }
  else
    { status := 400, headers := respHeaders, body := Json.str "Disallowed CORS method" }

/-- CORSMiddleware headers added to a non-preflight response when the request
carries an Origin header: `*` normally, the explicit origin when the request
also carries a cookie (credentialed requests cannot use `*`). -/
def simple_cors_headers (reqHeaders : List (String × String)) : List (String × String) :=
  if (getHeader reqHeaders "cookie").isSome then
    [("access-control-allow-origin", (getHeader reqHeaders "origin").getD ""),
     ("access-control-allow-credentials", "true"),
     ("vary", "Origin")]
  else
    [("access-control-allow-origin", "*"),
     ("access-control-allow-credentials", "true")]

/-- The full application: CORSMiddleware wrapped around `baseApp`.  A request
without an Origin header bypasses the middleware entirely; an OPTIONS request
with an `access-control-request-method` header is answered as a preflight;
any other request is served by `baseApp` with CORS headers appended. -/
def corsApp (req : Request) : Response :=
  if (getHeader req.headers "origin").isSome then
    if req.method = "OPTIONS" ∧ (getHeader req.headers "access-control-request-method").isSome then
      preflight_response req.headers
    else
      let inner := baseApp req
      { inner with headers := inner.headers ++ simple_cors_headers req.headers }
  else baseApp req

/-- Trace semantics of the server: the responses to a sequence of requests.
The module holds no mutable state (its only globals are the app and router
objects built at import time), so each request is handled independently. -/
def serve : List Request → List Response
  | [] => []
  | r :: rest => corsApp r :: serve rest

/-- Modelled from the spec: the StatusCheck record of the status-check
service, whose implementation (the `POST /api/status` and `GET /api/status`
routes and their backing store) is not among the files under src/ — only
its caller `performance_test.py` is.  `id` is the spec's opaque globally
unique identifier and `timestamp` its server-assigned UTC creation time,
both modelled as natural numbers. -/
structure StatusCheck where
  id : Nat
  client_name : String
  timestamp : Nat
deriving DecidableEq

/-- Modelled from the spec: the Status Store state — the stored records in
insertion order, plus the source of fresh identifiers (a counter standing
in for the spec's globally-unique id generator). -/
structure StoreState where
  records : List StatusCheck
  nextId : Nat
deriving DecidableEq

/-- The empty store, before any record has been created. -/
def StoreState.empty : StoreState := { records := [], nextId := 0 }

/-- Modelled from the spec: the validation failure raised by `create` when
`client_name` is empty or absent. -/
inductive ValidationError where
  | missingClientName
deriving DecidableEq

/-- Modelled from the spec: Status Store `create` — constructs a record with
a freshly generated unique id and the current server timestamp, fails with
`ValidationError` if `client_name` is empty, and appends the record to the
backing store. -/
def create (s : StoreState) (client_name : String) (now : Nat) :
    Except ValidationError (StatusCheck × StoreState) :=
  if client_name = "" then Except.error ValidationError.missingClientName
  else
    let r : StatusCheck := { id := s.nextId, client_name := client_name, timestamp := now }
    Except.ok (r, { records := s.records ++ [r], nextId := s.nextId + 1 })

/-- Modelled from the spec: Status Store `list_all` — every stored record,
insertion order preserved, side-effect-free. -/
def list_all (s : StoreState) : List StatusCheck := s.records

/-- JSON serialization of a StatusCheck: the three fields id, client_name
and timestamp. -/
def statusCheckJson (r : StatusCheck) : Json :=
  Json.obj [("id", Json.num r.id),
            ("client_name", Json.str r.client_name),
            ("timestamp", Json.num r.timestamp)]

/-- The 422 response of the HTTP surface for a request body failing schema
validation, with a field-level description. -/
def validation_error_response : Response :=
  { status := 422, headers := [("content-type", "application/json")],
    body := Json.obj [("detail", Json.str "field required: client_name")] }

/-- Modelled from the spec: the `POST /api/status` handler — requires a JSON
object body containing a string `client_name`; on success invokes `create`
and returns the resulting StatusCheck as JSON with a success status; on a
missing or invalid `client_name` returns 422 and leaves the store untouched.
The handler is a total function: a validation failure produces a response,
never a crash of the server process. -/
def post_status (s : StoreState) (body : Option Json) (now : Nat) :
    Response × StoreState :=
  match body with
  | none => (validation_error_response, s)
  | some b =>
    match jsonField b "client_name" with
    | some (Json.str name) =>
      match create s name now with
      | Except.ok (r, s2) => (jsonResponse (statusCheckJson r), s2)
      | Except.error _ => (validation_error_response, s)
    | _ => (validation_error_response, s)

/-- Modelled from the spec: the `GET /api/status` handler — invokes
`list_all` and returns the full sequence as a JSON array; an empty store
yields an empty array, not an error. -/
def get_status (s : StoreState) : Response :=
  jsonResponse (Json.arr ((list_all s).map statusCheckJson))

/-- Store well-formedness: every stored record's id is below the id counter,
so the next generated id is fresh.  Holds of the empty store and is
preserved by `create`. -/
def store_wf (s : StoreState) : Bool :=
  s.records.all (fun r => r.id < s.nextId)

theorem serve_append (l1 l2 : List Request) :
    serve (l1 ++ l2) = serve l1 ++ serve l2 := by
  induction l1 with
  | nil => rfl
  | cons r rest ih => simp [serve, ih]

theorem serve_last (hist : List Request) (r : Request) :
    (serve (hist ++ [r])).getLast? = some (corsApp r) := by
  rw [serve_append]
  exact List.getLast?_concat _

theorem baseApp_headers (req : Request) :
    (baseApp req).headers = [("content-type", "application/json")] ∨
    (baseApp req).headers = [("content-type", "text/html; charset=utf-8")] := by
  unfold baseApp
  repeat' split
  all_goals simp [jsonResponse, htmlResponse, method_not_allowed, not_found]

/-- C4.  The claim asserts that `GET /api/` answers with the fixed body
`message: Hello World`; the `root` handler in `pythonanywhere_server.py`
returns `message: Hello from Mega Meng!` together with a `status` field, so
the claimed body is wrong at every input; here at the concrete request
`GET /api/` with no headers. -/
theorem root_message_not_hello_world :
    jsonField (corsApp { method := "GET", path := "/api/", headers := [] }).body
      "message" ≠ some (Json.str "Hello World") := by
  intro h
  simp [corsApp, getHeader, baseApp, jsonResponse, root, jsonField, List.find?] at h

/-- C4 (amended).  Every request `GET /api/` — whatever its headers and
whatever requests preceded it — returns HTTP 200 with the fixed body
`message: Hello from Mega Meng!, status: PythonAnywhere ready`; the response
is independent of the request history, i.e. handling reads and writes no
server state. -/
theorem root_fixed_response (hist : List Request) (hs : List (String × String)) :
    (serve (hist ++ [{ method := "GET", path := "/api/", headers := hs }])).getLast? =
      some (corsApp { method := "GET", path := "/api/", headers := hs }) ∧
    (corsApp { method := "GET", path := "/api/", headers := hs }).status = 200 ∧
    (corsApp { method := "GET", path := "/api/", headers := hs }).body = root := by
  refine ⟨serve_last _ _, ?_, ?_⟩ <;>
    cases ho : getHeader hs "origin" <;>
      simp [corsApp, ho, baseApp, jsonResponse]

/-- C5.  Every request `GET /api/health` — whatever its headers and whatever
requests preceded it — returns HTTP 200 with a fixed JSON object whose
`status` field equals "healthy"; the response is independent of the request
history, i.e. handling reads and writes no server state. -/
theorem health_fixed_response (hist : List Request) (hs : List (String × String)) :
    (serve (hist ++ [{ method := "GET", path := "/api/health", headers := hs }])).getLast? =
      some (corsApp { method := "GET", path := "/api/health", headers := hs }) ∧
    (corsApp { method := "GET", path := "/api/health", headers := hs }).status = 200 ∧
    (corsApp { method := "GET", path := "/api/health", headers := hs }).body = health_check ∧
    jsonField (corsApp { method := "GET", path := "/api/health", headers := hs }).body
      "status" = some (Json.str "healthy") := by
  refine ⟨serve_last _ _, ?_, ?_, ?_⟩ <;>
    cases ho : getHeader hs "origin" <;>
      simp [corsApp, ho, baseApp, jsonResponse, health_check, jsonField, List.find?]

/-- C10.  The server's observable behavior is independent of request
history: the response to a request is the same after any two histories, and
the two route handlers return their fixed values on every invocation. -/
theorem handlers_history_independent :
    (∀ (h1 h2 : List Request) (r : Request),
      (serve (h1 ++ [r])).getLast? = (serve (h2 ++ [r])).getLast?) ∧
    (∀ r : Request, r.method = "GET" → r.path = "/api/" →
      baseApp r = jsonResponse root) ∧
    (∀ r : Request, r.method = "GET" → r.path = "/api/health" →
      baseApp r = jsonResponse health_check) := by
  refine ⟨fun h1 h2 r => ?_, fun r hm hp => ?_, fun r hm hp => ?_⟩
  · rw [serve_last, serve_last]
  · simp [baseApp, hm, hp]
  · simp [baseApp, hm, hp]

/-- Witness for C10 at concrete inputs. -/
theorem handlers_history_independent_witness :
    baseApp { method := "GET", path := "/api/", headers := [] } = jsonResponse root ∧
    baseApp { method := "GET", path := "/api/health", headers := [] } =
      jsonResponse health_check ∧
    (serve ([{ method := "GET", path := "/api/health", headers := [] }] ++
        [{ method := "GET", path := "/api/", headers := [] }])).getLast? =
      (serve ([] ++ [{ method := "GET", path := "/api/", headers := [] }])).getLast? :=
  ⟨handlers_history_independent.2.1 _ rfl rfl,
   handlers_history_independent.2.2 _ rfl rfl,
   handlers_history_independent.1 _ _ _⟩

theorem preflight_allow_origin (hs : List (String × String)) (origin : String)
    (ho : getHeader hs "origin" = some origin) :
    getHeader (preflight_response hs).headers "access-control-allow-origin" =
      some origin := by
  unfold preflight_response
  rw [ho]
  cases hh : getHeader hs "access-control-request-headers" <;>
    cases hm : getHeader hs "access-control-request-method" <;>
      simp only [Option.getD_some, Option.getD_none] <;>
        split <;>
          simp [getHeader, List.find?, ALL_METHODS]

/-- C7.  The claim asserts that every response carries an
`access-control-allow-origin` header; Starlette's CORSMiddleware passes a
request with no Origin header straight through to the application, so the
response to `GET /api/health` with no headers carries none. -/
theorem no_origin_no_cors_header :
    getHeader (corsApp { method := "GET", path := "/api/health", headers := [] }).headers "access-control-allow-origin" = none := rfl

/-- C7 (amended).  Every response to a request carrying an Origin header —
on every route, including OPTIONS preflight responses and error responses
such as 404 — carries an `access-control-allow-origin` header whose value is
`*` or the request's origin. -/
theorem cors_header_when_origin (req : Request) (origin : String)
    (ho : getHeader req.headers "origin" = some origin) :
    ∃ v, getHeader (corsApp req).headers "access-control-allow-origin" = some v ∧
      (v = "*" ∨ v = origin) := by
  have hcond : (getHeader req.headers "origin").isSome = true := by rw [ho]; rfl
  unfold corsApp
  rw [if_pos hcond]
  split
  · exact ⟨origin, preflight_allow_origin req.headers origin ho, Or.inr rfl⟩
  · rcases baseApp_headers req with hh | hh <;>
    · simp only [hh]
      unfold simple_cors_headers
      split
      · exact ⟨origin, by rw [ho]; simp [getHeader, List.find?], Or.inr rfl⟩
      · exact ⟨"*", by simp [getHeader, List.find?], Or.inl rfl⟩

/-- Witness for C7's amended theorem at a concrete request. -/
theorem cors_header_when_origin_witness :
    ∃ v, getHeader (corsApp { method := "GET", path := "/api/health", headers := [("origin", "https://example.com")] }).headers "access-control-allow-origin" = some v ∧
      (v = "*" ∨ v = "https://example.com") :=
  cors_header_when_origin _ "https://example.com" rfl

/-- C8.  A preflight OPTIONS request to any path — an OPTIONS request
carrying Origin and `access-control-request-method` headers — receives a
response containing a non-empty `access-control-allow-origin` header (the
echoed origin, since `allow_credentials=True` forces the explicit form). -/
theorem preflight_returns_allow_origin (req : Request) (origin m : String)
    (hop : req.method = "OPTIONS")
    (ho : getHeader req.headers "origin" = some origin)
    (hne : origin ≠ "")
    (hm : getHeader req.headers "access-control-request-method" = some m) :
    ∃ v, getHeader (corsApp req).headers "access-control-allow-origin" = some v ∧
      v ≠ "" := by
  refine ⟨origin, ?_, hne⟩
  unfold corsApp
  rw [if_pos (show (getHeader req.headers "origin").isSome = true by rw [ho]; rfl)]
  rw [if_pos ⟨hop, by rw [hm]; rfl⟩]
  exact preflight_allow_origin req.headers origin ho

/-- Witness for C8 at a concrete preflight request. -/
theorem preflight_returns_allow_origin_witness :
    ∃ v, getHeader (corsApp { method := "OPTIONS", path := "/api/health", headers := [("origin", "https://example.com"), ("access-control-request-method", "GET")] }).headers "access-control-allow-origin" = some v ∧ v ≠ "" :=
  preflight_returns_allow_origin _ "https://example.com" "GET" rfl rfl
    (by decide) rfl

/-- C1.  A `POST /api/status` whose body is a JSON object with a non-empty
string `client_name` creates a new StatusCheck record (appended to the
store) and returns 200 with a JSON object carrying `id`, `client_name` and
`timestamp`, the returned `client_name` equal to the supplied one. -/
theorem post_status_valid (s : StoreState) (b : Json) (name : String) (now : Nat)
    (hfield : jsonField b "client_name" = some (Json.str name)) (hne : name ≠ "") :
    (post_status s (some b) now).1.status = 200 ∧
    jsonField (post_status s (some b) now).1.body "client_name" =
      some (Json.str name) ∧
    jsonField (post_status s (some b) now).1.body "id" = some (Json.num s.nextId) ∧
    jsonField (post_status s (some b) now).1.body "timestamp" = some (Json.num now) ∧
    (post_status s (some b) now).2.records =
      s.records ++ [{ id := s.nextId, client_name := name, timestamp := now }] := by
  simp only [post_status, hfield, create]
  rw [if_neg hne]
  simp [jsonResponse, statusCheckJson, jsonField, List.find?]

/-- Witness for C1 at a concrete creation request. -/
theorem post_status_valid_witness :
    (post_status StoreState.empty (some (Json.obj [("client_name", Json.str "TestClient_1")])) 5).1.status = 200 ∧
    jsonField (post_status StoreState.empty (some (Json.obj [("client_name", Json.str "TestClient_1")])) 5).1.body "client_name" =
      some (Json.str "TestClient_1") ∧
    jsonField (post_status StoreState.empty (some (Json.obj [("client_name", Json.str "TestClient_1")])) 5).1.body "id" =
      some (Json.num StoreState.empty.nextId) ∧
    jsonField (post_status StoreState.empty (some (Json.obj [("client_name", Json.str "TestClient_1")])) 5).1.body "timestamp" =
      some (Json.num 5) ∧
    (post_status StoreState.empty (some (Json.obj [("client_name", Json.str "TestClient_1")])) 5).2.records =
      StoreState.empty.records ++ [{ id := StoreState.empty.nextId, client_name := "TestClient_1", timestamp := 5 }] :=
  post_status_valid StoreState.empty (Json.obj [("client_name", Json.str "TestClient_1")])
    "TestClient_1" 5 rfl (by decide)

/-- C2.  A `POST /api/status` whose body omits `client_name` — including a
missing body — returns 422 and creates no record: the store is unchanged,
so a subsequent `GET /api/status` returns the same response; the handler is
total, so the failure is never fatal to the server process. -/
theorem post_status_missing_field (s : StoreState) (b : Option Json) (now : Nat)
    (h : b = none ∨ ∃ j, b = some j ∧ jsonField j "client_name" = none) :
    (post_status s b now).1.status = 422 ∧
    (post_status s b now).2 = s ∧
    get_status (post_status s b now).2 = get_status s := by
  rcases h with rfl | ⟨j, rfl, hj⟩
  · exact ⟨rfl, rfl, rfl⟩
  · simp only [post_status, hj]
    exact ⟨rfl, trivial, trivial⟩

/-- Witness for C2 at the empty request body. -/
theorem post_status_missing_field_witness :
    (post_status StoreState.empty none 0).1.status = 422 ∧
    (post_status StoreState.empty none 0).2 = StoreState.empty ∧
    get_status (post_status StoreState.empty none 0).2 = get_status StoreState.empty :=
  post_status_missing_field StoreState.empty none 0 (Or.inl rfl)

/-- C3.  `GET /api/status` on the empty store returns HTTP 200 with the
empty JSON array — not an error, not null; in general it returns every
stored record, serialized in insertion order, and `create` appends the new
record at the end of the stored sequence. -/
theorem get_status_lists_all_in_order :
    (get_status StoreState.empty).status = 200 ∧
    (get_status StoreState.empty).body = Json.arr [] ∧
    (∀ s : StoreState, (get_status s).status = 200 ∧
      (get_status s).body = Json.arr ((list_all s).map statusCheckJson)) ∧
    (∀ (s : StoreState) (name : String) (now : Nat) (r : StatusCheck) (s2 : StoreState),
      create s name now = Except.ok (r, s2) → list_all s2 = list_all s ++ [r]) := by
  refine ⟨rfl, rfl, fun s => ⟨rfl, rfl⟩, fun s name now r s2 h => ?_⟩
  unfold create at h
  split at h
  · exact absurd h (by simp)
  · simp only [Except.ok.injEq, Prod.mk.injEq] at h
    obtain ⟨h1, h2⟩ := h
    subst h2
    simp [list_all, h1]

/-- Witness for C3's create-appends conjunct at a concrete creation. -/
theorem get_status_lists_all_in_order_witness :
    list_all { records := [{ id := 0, client_name := "A", timestamp := 0 }], nextId := 1 } =
      list_all StoreState.empty ++ [{ id := 0, client_name := "A", timestamp := 0 }] :=
  get_status_lists_all_in_order.2.2.2 StoreState.empty "A" 0
    { id := 0, client_name := "A", timestamp := 0 }
    { records := [{ id := 0, client_name := "A", timestamp := 0 }], nextId := 1 } rfl

/-- C6.  On a well-formed store, two sequential successful `create` calls
return records with distinct ids, and each id was returned by no earlier
create (it does not occur among the ids already stored); well-formedness is
preserved, so the guarantee extends to every later create. -/
theorem sequential_creates_fresh_ids (s : StoreState) (n1 n2 : String) (t1 t2 : Nat)
    (r1 : StatusCheck) (s1 : StoreState) (r2 : StatusCheck) (s2 : StoreState)
    (hwf : store_wf s = true)
    (h1 : create s n1 t1 = Except.ok (r1, s1))
    (h2 : create s1 n2 t2 = Except.ok (r2, s2)) :
    r1.id ≠ r2.id ∧
    r1.id ∉ (list_all s).map StatusCheck.id ∧
    r2.id ∉ (list_all s1).map StatusCheck.id ∧
    store_wf s1 = true ∧ store_wf s2 = true := by
  unfold create at h1 h2
  split at h1
  · exact absurd h1 (by simp)
  · simp only [Except.ok.injEq, Prod.mk.injEq] at h1
    obtain ⟨hr1, hs1⟩ := h1
    subst hs1
    split at h2
    · exact absurd h2 (by simp)
    · simp only [Except.ok.injEq, Prod.mk.injEq] at h2
      obtain ⟨hr2, hs2⟩ := h2
      subst hs2
      subst hr1
      subst hr2
      simp only [store_wf, List.all_eq_true, decide_eq_true_eq, list_all,
        List.mem_append, List.mem_map, List.mem_singleton] at hwf ⊢
      refine ⟨by simp, ?_, ?_, ?_, ?_⟩
      · rintro ⟨r, hr, hid⟩
        have := hwf r hr
        omega
      · rintro ⟨r, hr | rfl, hid⟩
        · have := hwf r hr
          omega
        · simp at hid
      · rintro r (hr | rfl)
        · exact Nat.lt_succ_of_lt (hwf r hr)
        · exact Nat.lt_succ_self _
      · rintro r ((hr | rfl) | rfl)
        · have := hwf r hr
          exact Nat.lt_succ_of_lt (Nat.lt_succ_of_lt this)
        · exact Nat.lt_succ_of_lt (Nat.lt_succ_self _)
        · exact Nat.lt_succ_self _

/-- Witness for C6: two sequential creates from the empty store. -/
theorem sequential_creates_fresh_ids_witness :
    ({ id := 0, client_name := "A", timestamp := 1 } : StatusCheck).id ≠
      ({ id := 1, client_name := "B", timestamp := 2 } : StatusCheck).id ∧
    ({ id := 0, client_name := "A", timestamp := 1 } : StatusCheck).id ∉
      (list_all StoreState.empty).map StatusCheck.id ∧
    ({ id := 1, client_name := "B", timestamp := 2 } : StatusCheck).id ∉
      (list_all { records := [{ id := 0, client_name := "A", timestamp := 1 }], nextId := 1 }).map StatusCheck.id ∧
    store_wf { records := [{ id := 0, client_name := "A", timestamp := 1 }], nextId := 1 } = true ∧
    store_wf { records := [{ id := 0, client_name := "A", timestamp := 1 }, { id := 1, client_name := "B", timestamp := 2 }], nextId := 2 } = true :=
  sequential_creates_fresh_ids StoreState.empty "A" "B" 1 2
    { id := 0, client_name := "A", timestamp := 1 }
    { records := [{ id := 0, client_name := "A", timestamp := 1 }], nextId := 1 }
    { id := 1, client_name := "B", timestamp := 2 }
    { records := [{ id := 0, client_name := "A", timestamp := 1 }, { id := 1, client_name := "B", timestamp := 2 }], nextId := 2 }
    (by decide) rfl rfl
